import Mathlib

/-
Verification of `drone_flightplan/sampleRasterAtPoints.py`.

The module is a linear point-sampling pipeline over a DEM raster:
open the raster, invert its affine geotransform, reproject each query
point into the raster CRS, map it to an integer pixel index, read one
pixel, decode its raw bytes, and collect rows; a second function dumps
rows to CSV.

Shallow embedding conventions:
- real-valued coordinates are modelled as `ℚ` (every concrete value the
  program manipulates is a finite decimal / dyadic float, hence rational);
- the GDAL affine-transform primitives (`ApplyGeoTransform`,
  `InvGeoTransform`) are embedded by their documented formulas;
- `osr.CoordinateTransformation` is a black-box collaborator and is
  modelled as an arbitrary function parameter (built from the two
  spatial-reference strings by another black-box parameter);
- `band.ReadRaster(pixX, pixY, 1, 1)` is modelled as a bounds-checked
  lookup returning the raw bytes of one pixel, failing (as the GDAL
  binding does) when the 1x1 access window is outside the raster;
- a Python exception aborting the run is modelled by `Except`: the first
  failing step produces `.error` and no further input is processed.
-/

set_option autoImplicit false

namespace SampleRasterAtPoints

/-- A GDAL geotransform: six coefficients `(gt0, gt1, gt2, gt3, gt4, gt5)`
mapping pixel coordinates `(p, l)` to map coordinates
`x = gt0 + p*gt1 + l*gt2`, `y = gt3 + p*gt4 + l*gt5`. -/
structure GeoTransform where
  gt0 : ℚ
  gt1 : ℚ
  gt2 : ℚ
  gt3 : ℚ
  gt4 : ℚ
  gt5 : ℚ
  deriving DecidableEq, Repr

/-- Model of `gdal.ApplyGeoTransform(gt, x, y)`: apply the affine transform to a
coordinate pair. -/
def applyGeoTransform (gt : GeoTransform) (x y : ℚ) : ℚ × ℚ :=
  (gt.gt0 + x * gt.gt1 + y * gt.gt2, gt.gt3 + x * gt.gt4 + y * gt.gt5)

/-- Determinant of the linear part of a geotransform; the transform is
invertible iff it is nonzero. -/
def gtDet (gt : GeoTransform) : ℚ :=
  gt.gt1 * gt.gt5 - gt.gt2 * gt.gt4

/-- Model of `gdal.InvGeoTransform(forward)`: returns the inverse geotransform, or
`None` (here `none`) when the forward transform is degenerate.  The Python
binding does NOT raise on failure; it silently returns `None`.  Formula
from GDAL's `GDALInvGeoTransform` (the float magnitude threshold on the
determinant is idealised to exact-zero over `ℚ`). -/
def invGeoTransform (gt : GeoTransform) : Option GeoTransform :=
  let det := gtDet gt
  if det = 0 then none
  else some
    { gt0 := (gt.gt2 * gt.gt3 - gt.gt0 * gt.gt5) / det
      gt1 := gt.gt5 / det
      gt2 := -gt.gt2 / det
      gt3 := (-gt.gt1 * gt.gt3 + gt.gt0 * gt.gt4) / det
      gt4 := -gt.gt4 / det
      gt5 := gt.gt1 / det }

/-- Band 1 of an opened raster: pixel dimensions plus the raw bytes stored
at each pixel (modelling whatever `ReadRaster` would return for a 1x1
window at that pixel). -/
structure RasterBand where
  xsize : ℕ
  ysize : ℕ
  pix : ℤ → ℤ → List ℕ

/-- Model of `band.ReadRaster(pixX, pixY, 1, 1)`: read the raw bytes of one pixel.
The GDAL binding fails (access window out of range) when the window is
not contained in the raster; that failure is `none` here. -/
def readRaster (b : RasterBand) (pixX pixY : ℤ) : Option (List ℕ) :=
  if 0 ≤ pixX ∧ 0 ≤ pixY ∧ pixX < (b.xsize : ℤ) ∧ pixY < (b.ysize : ℤ) then
    some (b.pix pixX pixY)
  else none

/-- Model of `struct.unpack("<h", bytes)[0]`: decode exactly two bytes as a
little-endian signed 16-bit integer; any other byte count is a
`struct.error` (here `none`). -/
def decodeInt16LE (bytes : List ℕ) : Option ℤ :=
  match bytes with
  | [b0, b1] =>
      let u : ℕ := b0 % 256 + 256 * (b1 % 256)
      some (if u < 32768 then (u : ℤ) else (u : ℤ) - 65536)
  | _ => none

/-- Model of `struct.unpack("f", bytes)[0]`: decode exactly four bytes as a
little-endian IEEE-754 single-precision float.  Finite floats are exact
dyadic rationals and are returned as such; the non-finite encodings
(exponent field 255: infinities and NaNs) have no rational value and
yield `none`, as does any byte count other than four. -/
def decodeFloat32LE (bytes : List ℕ) : Option ℚ :=
  match bytes with
  | [b0, b1, b2, b3] =>
      let u : ℕ := b0 % 256 + 256 * (b1 % 256) + 65536 * (b2 % 256) +
        16777216 * (b3 % 256)
      let sign : ℕ := u / 2 ^ 31
      let e : ℕ := (u / 2 ^ 23) % 256
      let m : ℕ := u % 2 ^ 23
      if e = 255 then none
      else
        let mag : ℚ :=
          if e = 0 then ((m : ℚ) / 2 ^ 23) * (2 : ℚ) ^ (-(126 : ℤ))
          else (1 + (m : ℚ) / 2 ^ 23) * (2 : ℚ) ^ ((e : ℤ) - 127)
        some (if sign = 1 then -mag else mag)
  | _ => none

/-- The distinguishable ways a run of either sampling function aborts.
Each constructor stands for the concrete uncaught Python exception at the
corresponding program point. -/
inductive SampleError where
  /-- The call `lyr.GetSpatialRef()` returned `None`: the attribute access
  `pointSR.GetName` (and the subsequent transformation construction)
  fails because the vector layer declares no CRS. -/
  | missingCRSError
  /-- The call `gdal.ApplyGeoTransform` was reached with `reverse = None` because
  `InvGeoTransform` failed on a degenerate forward transform. -/
  | noneReverseError
  /-- The call `band.ReadRaster` failed: the 1x1 access window is outside the
  raster. -/
  | pixelReadError
  /-- The call `struct.unpack` received a buffer whose length does not match the
  format (or, for `"f"`, a non-finite encoding outside the model). -/
  | structError
  deriving DecidableEq, Repr

/-- An element of the `points_list` argument of
`sampleRasterFromPointsList`: `[index, x, y]` with x/y in EPSG:3857. -/
structure PointFeature where
  index : ℤ
  x : ℚ
  y : ℚ
  deriving DecidableEq, Repr

/-- An output row of `sampleRasterFromPointsList`:
`[index, x, y, elevation]` with the int16-decoded elevation. -/
structure RowList where
  index : ℤ
  x : ℚ
  y : ℚ
  elevation : ℤ
  deriving DecidableEq, Repr

/-- An output row of `rasterValuesAtPoints`: `[mapX, mapY, elevation]`
with the float32-decoded elevation. -/
structure RowVec where
  mapX : ℚ
  mapY : ℚ
  elevation : ℚ
  deriving DecidableEq, Repr

/-- What `gdal.Open(raster_file)` contributes to the pipeline: the
projection (spatial-reference definition string), band 1, and the forward
geotransform. -/
structure Raster where
  srs : String
  band : RasterBand
  forward : GeoTransform

/-- What `ogr.Open(point_file).GetLayer()` contributes: the declared
spatial reference (absent when the layer has none) and the ordered point
geometries `(x, y)` in the layer's own CRS. -/
structure VectorLayer where
  spatialRef : Option String
  features : List (ℚ × ℚ)

/-- A black-box model of `osr.CoordinateTransformation(srcSR, dstSR)`
followed by `.TransformPoint`: from a source and a target
spatial-reference string, a coordinate mapping.  The output tuple is in
the target reference's declared axis order; only components `[0]` and
`[1]` are consumed by the program. -/
def MkTransform : Type :=
  String → String → ℚ → ℚ → ℚ × ℚ

/-- Model of `osr.CoordinateTransformation` between a pair of equal spatial
references returns the input coordinates unchanged (in that reference's
axis order): the identity mapping. -/
def identityTransform (x y : ℚ) : ℚ × ℚ :=
  (x, y)

/-- The loop body of `sampleRasterFromPointsList` (source lines 50-66):
transform the point, take the SECOND transformed component as `mapX` and
the FIRST as `mapY`, apply the inverse geotransform, floor both pixel
coordinates, read one pixel, decode it as little-endian int16, and emit
`[index, x, y, elevation]` with the ORIGINAL input coordinates. -/
def samplePointFromList (reverse : Option GeoTransform)
    (transform : ℚ → ℚ → ℚ × ℚ) (band : RasterBand) (feature : PointFeature) :
    Except SampleError RowList :=
  let pointXYRasterCRS := transform feature.x feature.y
  let mapX := pointXYRasterCRS.2
  let mapY := pointXYRasterCRS.1
  match reverse with
  | none => .error .noneReverseError
  | some rev =>
    let pixcoords := applyGeoTransform rev mapX mapY
    let pixX : ℤ := ⌊pixcoords.1⌋
    let pixY : ℤ := ⌊pixcoords.2⌋
    match readRaster band pixX pixY with
    | none => .error .pixelReadError
    | some elevationstruct =>
      match decodeInt16LE elevationstruct with
      | none => .error .structError
      | some elevation =>
        .ok { index := feature.index, x := feature.x, y := feature.y,
              elevation := elevation }

/-- The loop body of `rasterValuesAtPoints` (source lines 101-121): same
pipeline, but the pixel bytes are decoded as a 32-bit float and the row
is `[mapX, mapY, elevation]` (reprojected coordinates, index and
attributes discarded). -/
def samplePointFromLayer (reverse : Option GeoTransform)
    (transform : ℚ → ℚ → ℚ × ℚ) (band : RasterBand) (geom : ℚ × ℚ) :
    Except SampleError RowVec :=
  let pointXYRasterCRS := transform geom.1 geom.2
  let mapX := pointXYRasterCRS.2
  let mapY := pointXYRasterCRS.1
  match reverse with
  | none => .error .noneReverseError
  | some rev =>
    let pixcoords := applyGeoTransform rev mapX mapY
    let pixX : ℤ := ⌊pixcoords.1⌋
    let pixY : ℤ := ⌊pixcoords.2⌋
    match readRaster band pixX pixY with
    | none => .error .pixelReadError
    | some elevationstruct =>
      match decodeFloat32LE elevationstruct with
      | none => .error .structError
      | some elevation =>
        .ok { mapX := mapX, mapY := mapY, elevation := elevation }

/-- Python's `for`-loop with `points.append(...)` under exception
propagation: process the inputs in order, collecting rows, aborting the
whole run at the first error with no partial result. -/
def processPoints {α β : Type} (g : α → Except SampleError β) :
    List α → Except SampleError (List β)
  | [] => .ok []
  | f :: rest =>
    match g f with
    | .error e => .error e
    | .ok row =>
      match processPoints g rest with
      | .error e => .error e
      | .ok rows => .ok (row :: rows)

/-- Model of `sampleRasterFromPointsList(raster_file, points_list)`: the raster is
opened, the forward geotransform is inverted (no check of the result),
the transformation from EPSG:3857 to the raster CRS is built once, and
every point of the list is sampled in order. -/
def sampleRasterFromPointsList (mk : MkTransform) (raster : Raster)
    (points_list : List PointFeature) : Except SampleError (List RowList) :=
  let reverse := invGeoTransform raster.forward
  let transform := mk "EPSG:3857" raster.srs
  processPoints (samplePointFromList reverse transform raster.band) points_list

/-- Model of `rasterValuesAtPoints(raster_file, point_file)`: as above, but the
source spatial reference comes from the vector layer; when the layer
declares none, the run fails (at `pointSR.GetName` /
`osr.CoordinateTransformation`) before any feature is processed. -/
def rasterValuesAtPoints (mk : MkTransform) (raster : Raster)
    (layer : VectorLayer) : Except SampleError (List RowVec) :=
  let reverse := invGeoTransform raster.forward
  match layer.spatialRef with
  | none => .error .missingCRSError
  | some pointSR =>
    let transform := mk pointSR raster.srs
    processPoints (samplePointFromLayer reverse transform raster.band)
      layer.features

/-- A file system as a map from paths to contents. -/
def FileSys : Type :=
  String → Option String

/-- Model of `open(outfile, "w")` followed by writes: the destination is replaced
unconditionally by the new content; every other path is untouched. -/
def writeFileW (fs : FileSys) (path content : String) : FileSys :=
  fun p => if p = path then some content else fs p

/-- Model of `csv.writer(of).writerow(row)`: one physical output line — the fields
joined by commas plus the default `\r\n` terminator.  (The program only
ever writes numeric fields and the fixed header, which need no CSV
quoting.) -/
def csvWriterow (row : List String) : String :=
  String.intercalate "," row ++ "\r\n"

/-- Textual rendering of a numeric field. -/
def ratStr (q : ℚ) : String :=
  toString q

/-- The ordered physical lines (without terminators) that
`gridWithElevation2csv` emits: the literal header, then one line per
grid row in input order. -/
def gridCsvLines (grid : List (List ℚ)) : List String :=
  String.intercalate "," ["x", "y", "elevation"] ::
    grid.map (fun row => String.intercalate "," (row.map ratStr))

/-- Sequential emission of physical lines, each with the csv module's
default `\r\n` terminator. -/
def concatLines : List String → String
  | [] => ""
  | l :: rest => l ++ "\r\n" ++ concatLines rest

/-- Model of `gridWithElevation2csv(grid, outfile)`: open the destination in mode
`"w"` (unconditional overwrite), write the header row, then every grid
row in order. -/
def gridWithElevation2csv (grid : List (List ℚ)) (outfile : String)
    (fs : FileSys) : FileSys :=
  writeFileW fs outfile (concatLines (gridCsvLines grid))

/-! Spec-side reference definitions.

The following definitions restate, in the spec's words, what the
post-transformation tail of each sampling loop is expected to do at a
given pixel index; the claim theorems compare the source-derived
samplers against them. -/

/-- Spec reading, list path: at pixel index `(pixX, pixY)`, read one
pixel, decode it as little-endian int16, and emit the row carrying the
input feature's index and coordinates unchanged. -/
def int16RowAt (band : RasterBand) (feature : PointFeature) (pixX pixY : ℤ) :
    Except SampleError RowList :=
  match readRaster band pixX pixY with
  | none => .error .pixelReadError
  | some bs =>
    match decodeInt16LE bs with
    | none => .error .structError
    | some elevation =>
      .ok { index := feature.index, x := feature.x, y := feature.y,
            elevation := elevation }

/-- Spec reading, vector path: at pixel index `(pixX, pixY)`, read one
pixel, decode it as a 32-bit float, and emit `[mapX, mapY, elevation]`. -/
def float32RowAt (band : RasterBand) (mapX mapY : ℚ) (pixX pixY : ℤ) :
    Except SampleError RowVec :=
  match readRaster band pixX pixY with
  | none => .error .pixelReadError
  | some bs =>
    match decodeFloat32LE bs with
    | none => .error .structError
    | some elevation =>
      .ok { mapX := mapX, mapY := mapY, elevation := elevation }

/-- Spec reading: the integer pixel index is obtained from the
fractional pixel coordinates by flooring toward negative infinity, with
no rounding and no bounds clamping. -/
def pixelIndexOf (pc : ℚ × ℚ) : ℤ × ℤ :=
  (⌊pc.1⌋, ⌊pc.2⌋)

/-- The identity-like forward geotransform `[0, 1, 0, 0, 0, 1]` used by
the spec's testable properties. -/
def identityGT : GeoTransform :=
  { gt0 := 0, gt1 := 1, gt2 := 0, gt3 := 0, gt4 := 0, gt5 := 1 }

/-- A degenerate (non-invertible) forward geotransform: its linear part
is the zero matrix. -/
def degenerateGT : GeoTransform :=
  { gt0 := 0, gt1 := 0, gt2 := 0, gt3 := 0, gt4 := 0, gt5 := 0 }

/-- A transformation factory whose every transformation is the identity:
models `osr.CoordinateTransformation` when source and target references
coincide. -/
def mkIdentity : MkTransform :=
  fun _ _ x y => (x, y)

/-- A 1x1 band whose single pixel stores the given bytes. -/
def constBand (bytes : List ℕ) : RasterBand :=
  { xsize := 1, ysize := 1, pix := fun _ _ => bytes }

/-- A 2x2 band distinguishing pixel `(0, 1)` (int16 value 7) from pixel
`(1, 0)` (int16 value 9); every other pixel holds int16 value 0. -/
def cexBand : RasterBand :=
  { xsize := 2, ysize := 2,
    pix := fun pixX pixY =>
      if pixX = 0 ∧ pixY = 1 then [7, 0]
      else if pixX = 1 ∧ pixY = 0 then [9, 0]
      else [0, 0] }

/-! Shared lemmas. -/

theorem invGeoTransform_identityGT : invGeoTransform identityGT = some identityGT := by
  simp only [invGeoTransform, gtDet, identityGT]
  norm_num

theorem applyGeoTransform_identityGT (x y : ℚ) :
    applyGeoTransform identityGT x y = (x, y) := by
  simp [applyGeoTransform, identityGT]

theorem samplePointFromList_some (rev : GeoTransform)
    (transform : ℚ → ℚ → ℚ × ℚ) (band : RasterBand) (feature : PointFeature) :
    samplePointFromList (some rev) transform band feature =
      int16RowAt band feature
        ⌊(applyGeoTransform rev (transform feature.x feature.y).2
            (transform feature.x feature.y).1).1⌋
        ⌊(applyGeoTransform rev (transform feature.x feature.y).2
            (transform feature.x feature.y).1).2⌋ := by
  rfl

theorem samplePointFromLayer_some (rev : GeoTransform)
    (transform : ℚ → ℚ → ℚ × ℚ) (band : RasterBand) (geom : ℚ × ℚ) :
    samplePointFromLayer (some rev) transform band geom =
      float32RowAt band (transform geom.1 geom.2).2 (transform geom.1 geom.2).1
        ⌊(applyGeoTransform rev (transform geom.1 geom.2).2
            (transform geom.1 geom.2).1).1⌋
        ⌊(applyGeoTransform rev (transform geom.1 geom.2).2
            (transform geom.1 geom.2).1).2⌋ := by
  rfl

theorem processPoints_nil {α β : Type} (g : α → Except SampleError β) :
    processPoints g [] = .ok [] := rfl

theorem processPoints_cons {α β : Type} (g : α → Except SampleError β)
    (f : α) (rest : List α) :
    processPoints g (f :: rest) =
      match g f with
      | .error e => .error e
      | .ok row =>
        match processPoints g rest with
        | .error e => .error e
        | .ok rows => .ok (row :: rows) := rfl

/-- A run aborts at the first failing input: whenever every element of
`pre` succeeds and `p` fails, the whole run fails with `p`'s error,
whatever comes after `p`. -/
theorem processPoints_abort {α β : Type} (g : α → Except SampleError β)
    (pre : List α) (p : α) (suf : List α) (e : SampleError)
    (hpre : ∀ q ∈ pre, ∃ r, g q = .ok r) (hp : g p = .error e) :
    processPoints g (pre ++ p :: suf) = .error e := by
  induction pre with
  | nil => simp [processPoints_cons, hp]
  | cons a l ih =>
    obtain ⟨r, hr⟩ := hpre a (List.mem_cons_self a l)
    have h₂ : ∀ q ∈ l, ∃ r, g q = .ok r := fun q hq =>
      hpre q (List.mem_cons_of_mem a hq)
    simp only [List.cons_append, processPoints_cons, hr, ih h₂]

/-- A successful run produces one row per input, in order, and each row
is the per-point result of its own input. -/
theorem processPoints_ok {α β : Type} (g : α → Except SampleError β)
    (l : List α) (rows : List β) (h : processPoints g l = .ok rows) :
    rows.length = l.length ∧ ∀ i : ℕ, ∀ hi : i < l.length, ∀ hj : i < rows.length,
      g (l.get ⟨i, hi⟩) = .ok (rows.get ⟨i, hj⟩) := by
  induction l generalizing rows with
  | nil =>
    simp only [processPoints_nil, Except.ok.injEq] at h
    subst h
    simp
  | cons a t ih =>
    rw [processPoints_cons] at h
    cases ha : g a with
    | error e => rw [ha] at h; cases h
    | ok row =>
      rw [ha] at h
      cases ht : processPoints g t with
      | error e => rw [ht] at h; cases h
      | ok trows =>
        rw [ht] at h
        simp only [Except.ok.injEq] at h
        subst h
        obtain ⟨hlen, hget⟩ := ih trows ht
        refine ⟨by simpa using hlen, ?_⟩
        intro i hi hj
        cases i with
        | zero => simpa using ha
        | succ k =>
          simpa using hget k (by simpa using hi) (by simpa using hj)

/-- A row produced by the list-path loop body carries its input's index
and original coordinates. -/
theorem samplePointFromList_ok_fields (reverse : Option GeoTransform)
    (transform : ℚ → ℚ → ℚ × ℚ) (band : RasterBand) (feature : PointFeature)
    (row : RowList) (h : samplePointFromList reverse transform band feature = .ok row) :
    row.index = feature.index ∧ row.x = feature.x ∧ row.y = feature.y := by
  unfold samplePointFromList at h
  cases reverse with
  | none => cases h
  | some rev =>
    simp only at h
    split at h
    · cases h
    · split at h
      · cases h
      · cases h
        exact ⟨rfl, rfl, rfl⟩

/-- When the 1x1 read window at the computed pixel index is rejected, the
list-path loop body fails with the pixel-read error. -/
theorem samplePointFromList_pixelReadError (rev : GeoTransform)
    (transform : ℚ → ℚ → ℚ × ℚ) (band : RasterBand) (feature : PointFeature)
    (h : readRaster band
        ⌊(applyGeoTransform rev (transform feature.x feature.y).2
            (transform feature.x feature.y).1).1⌋
        ⌊(applyGeoTransform rev (transform feature.x feature.y).2
            (transform feature.x feature.y).1).2⌋ = none) :
    samplePointFromList (some rev) transform band feature =
      .error .pixelReadError := by
  rw [samplePointFromList_some]
  simp [int16RowAt, h]

/-- When the 1x1 read window at the computed pixel index is rejected, the
vector-path loop body fails with the pixel-read error. -/
theorem samplePointFromLayer_pixelReadError (rev : GeoTransform)
    (transform : ℚ → ℚ → ℚ × ℚ) (band : RasterBand) (geom : ℚ × ℚ)
    (h : readRaster band
        ⌊(applyGeoTransform rev (transform geom.1 geom.2).2
            (transform geom.1 geom.2).1).1⌋
        ⌊(applyGeoTransform rev (transform geom.1 geom.2).2
            (transform geom.1 geom.2).1).2⌋ = none) :
    samplePointFromLayer (some rev) transform band geom =
      .error .pixelReadError := by
  rw [samplePointFromLayer_some]
  simp [float32RowAt, h]

/-! Claims. -/

/-- C1, counterexample.  With the identity-like forward geotransform
`[0,1,0,0,0,1]` and the point source's own reference as the raster
reference (so the coordinate transformation is the identity), sampling
the point `(x, y) = (0, 1)` does NOT read pixel
`(⌊x⌋, ⌊y⌋) = (0, 1)` (which stores int16 value 7): it reads pixel
`(1, 0)` and returns elevation 9. -/
theorem claim_C1_counterexample :
    sampleRasterFromPointsList mkIdentity
      { srs := "EPSG:3857", band := cexBand, forward := identityGT }
      [{ index := 0, x := 0, y := 1 }] =
      .ok [{ index := 0, x := 0, y := 1, elevation := 9 }] ∧
    readRaster cexBand 0 1 = some [7, 0] ∧
    decodeInt16LE [7, 0] = some 7 ∧
    (9 : ℤ) ≠ 7 := by
  refine ⟨?_, ?_, by decide, by decide⟩
  · norm_num [sampleRasterFromPointsList, processPoints, samplePointFromList,
      mkIdentity, invGeoTransform, gtDet, identityGT, applyGeoTransform,
      readRaster, cexBand, decodeInt16LE]
  · norm_num [readRaster, cexBand]

/-- C1 (amended): for every raster whose forward geotransform is
identity-like (`[0,1,0,0,0,1]`) and whose spatial reference equals the
point source's reference (so the coordinate transformation returns the
coordinates unchanged), sampling a point `(x, y)` reads the pixel at
index `(⌊y⌋, ⌊x⌋)` — the two coordinates are swapped by the sampler
before the inverse affine transform is applied. -/
theorem claim_C1_amended (mk : MkTransform) (srs : String) (band : RasterBand)
    (i : ℤ) (x y : ℚ)
    (hmk : ∀ a b : ℚ, mk "EPSG:3857" srs a b = (a, b)) :
    sampleRasterFromPointsList mk { srs := srs, band := band, forward := identityGT }
      [{ index := i, x := x, y := y }] =
      (int16RowAt band { index := i, x := x, y := y } ⌊y⌋ ⌊x⌋).map
        (fun r => [r]) := by
  unfold sampleRasterFromPointsList
  simp only [invGeoTransform_identityGT, processPoints, samplePointFromList_some,
    hmk, applyGeoTransform_identityGT]
  cases h : int16RowAt band { index := i, x := x, y := y } ⌊y⌋ ⌊x⌋ <;>
    simp [Except.map, h]

/-- C1, witness for the amended theorem at a concrete input. -/
theorem claim_C1_witness :
    (∀ a b : ℚ, mkIdentity "EPSG:3857" "EPSG:3857" a b = (a, b)) ∧
    sampleRasterFromPointsList mkIdentity
      { srs := "EPSG:3857", band := cexBand, forward := identityGT }
      [{ index := 0, x := 0, y := 1 }] =
      (int16RowAt cexBand { index := 0, x := 0, y := 1 } ⌊(1 : ℚ)⌋ ⌊(0 : ℚ)⌋).map
        (fun r => [r]) :=
  ⟨fun _ _ => rfl,
    claim_C1_amended mkIdentity "EPSG:3857" cexBand 0 0 1 (fun _ _ => rfl)⟩

/-- C2: in both sampling loop bodies, the transformed point's SECOND
component is used as `mapX` and its FIRST component as `mapY` — the two
transformed coordinates are unconditionally swapped before the inverse
affine transform is applied, for every input point, transformation,
raster band, and (invertible) geotransform. -/
theorem claim_C2 (rev : GeoTransform) (transform : ℚ → ℚ → ℚ × ℚ)
    (band : RasterBand) (feature : PointFeature) (geom : ℚ × ℚ) :
    samplePointFromList (some rev) transform band feature =
      int16RowAt band feature
        ⌊(applyGeoTransform rev (transform feature.x feature.y).2
            (transform feature.x feature.y).1).1⌋
        ⌊(applyGeoTransform rev (transform feature.x feature.y).2
            (transform feature.x feature.y).1).2⌋ ∧
    samplePointFromLayer (some rev) transform band geom =
      float32RowAt band (transform geom.1 geom.2).2 (transform geom.1 geom.2).1
        ⌊(applyGeoTransform rev (transform geom.1 geom.2).2
            (transform geom.1 geom.2).1).1⌋
        ⌊(applyGeoTransform rev (transform geom.1 geom.2).2
            (transform geom.1 geom.2).1).2⌋ :=
  ⟨samplePointFromList_some rev transform band feature,
    samplePointFromLayer_some rev transform band geom⟩

/-- C4: both loop bodies obtain the integer pixel index by applying
`Int.floor` (truncation toward negative infinity) to the fractional
pixel coordinates and pass it to the raster read unchanged;
`⌊-1/2⌋ = -1`, not `0`; and with the identity setup a point at
`(-1/2, -1/2)` is read at pixel `(-1, -1)` — unclamped, hence rejected
by the read — for every band. -/
theorem claim_C4 (rev : GeoTransform) (transform : ℚ → ℚ → ℚ × ℚ)
    (band : RasterBand) (feature : PointFeature) (geom : ℚ × ℚ)
    (srs : String) (band' : RasterBand) (i : ℤ) :
    samplePointFromList (some rev) transform band feature =
      int16RowAt band feature
        (pixelIndexOf (applyGeoTransform rev (transform feature.x feature.y).2
          (transform feature.x feature.y).1)).1
        (pixelIndexOf (applyGeoTransform rev (transform feature.x feature.y).2
          (transform feature.x feature.y).1)).2 ∧
    samplePointFromLayer (some rev) transform band geom =
      float32RowAt band (transform geom.1 geom.2).2 (transform geom.1 geom.2).1
        (pixelIndexOf (applyGeoTransform rev (transform geom.1 geom.2).2
          (transform geom.1 geom.2).1)).1
        (pixelIndexOf (applyGeoTransform rev (transform geom.1 geom.2).2
          (transform geom.1 geom.2).1)).2 ∧
    pixelIndexOf (-1 / 2, -1 / 2) = (-1, -1) ∧
    pixelIndexOf (-1 / 2, -1 / 2) ≠ (0, 0) ∧
    sampleRasterFromPointsList mkIdentity
      { srs := srs, band := band', forward := identityGT }
      [{ index := i, x := -1 / 2, y := -1 / 2 }] = .error .pixelReadError := by
  refine ⟨samplePointFromList_some rev transform band feature,
    samplePointFromLayer_some rev transform band geom,
    by norm_num [pixelIndexOf], by norm_num [pixelIndexOf], ?_⟩
  norm_num [sampleRasterFromPointsList, processPoints, samplePointFromList,
    mkIdentity, invGeoTransform, gtDet, identityGT, applyGeoTransform, readRaster]

/-- C3: whatever bytes a pixel stores, the list-based path decodes them
as a little-endian signed 16-bit integer, and the vector-file path
decodes them as a 32-bit IEEE float; in particular bytes `0x01 0x00`
decode to int16 `1` on the first path and the byte pattern
`0x00 0x00 0x80 0x3F` of IEEE float `1.0` decodes to `1` on the second
path. -/
theorem claim_C3 (bytes : List ℕ) (srs lyrSR : String) :
    sampleRasterFromPointsList mkIdentity
      { srs := srs, band := constBand bytes, forward := identityGT }
      [{ index := 0, x := 0, y := 0 }] =
      (match decodeInt16LE bytes with
        | none => .error .structError
        | some e => .ok [{ index := 0, x := 0, y := 0, elevation := e }]) ∧
    rasterValuesAtPoints mkIdentity
      { srs := srs, band := constBand bytes, forward := identityGT }
      { spatialRef := some lyrSR, features := [(0, 0)] } =
      (match decodeFloat32LE bytes with
        | none => .error .structError
        | some e => .ok [{ mapX := 0, mapY := 0, elevation := e }]) ∧
    decodeInt16LE [1, 0] = some 1 ∧
    decodeFloat32LE [0, 0, 128, 63] = some 1 := by
  refine ⟨?_, ?_, by decide, by norm_num [decodeFloat32LE]⟩
  · cases hd : decodeInt16LE bytes <;>
      norm_num [sampleRasterFromPointsList, processPoints, samplePointFromList,
        mkIdentity, invGeoTransform, gtDet, identityGT, applyGeoTransform,
        readRaster, constBand, hd]
  · cases hd : decodeFloat32LE bytes <;>
      norm_num [rasterValuesAtPoints, processPoints, samplePointFromLayer,
        mkIdentity, invGeoTransform, gtDet, identityGT, applyGeoTransform,
        readRaster, constBand, hd]

/-- C5: when the input vector layer declares no spatial reference, the
vector-file mode fails with the missing-CRS error (the dereference of
the absent spatial reference), whatever the raster and the point
geometries. -/
theorem claim_C5 (mk : MkTransform) (raster : Raster) (layer : VectorLayer)
    (h : layer.spatialRef = none) :
    rasterValuesAtPoints mk raster layer = .error .missingCRSError := by
  unfold rasterValuesAtPoints
  rw [h]

/-- C5, witness at a concrete layer with no spatial reference. -/
theorem claim_C5_witness :
    ({ spatialRef := none, features := [(0, 0)] } : VectorLayer).spatialRef
        = none ∧
    rasterValuesAtPoints mkIdentity
      { srs := "EPSG:3857", band := cexBand, forward := identityGT }
      { spatialRef := none, features := [(0, 0)] } =
      .error .missingCRSError :=
  ⟨rfl, claim_C5 mkIdentity
    { srs := "EPSG:3857", band := cexBand, forward := identityGT }
    { spatialRef := none, features := [(0, 0)] } rfl⟩

/-- C6, counterexample.  With a degenerate forward geotransform the
raster-loading step does NOT fail: `InvGeoTransform` silently yields no
inverse, and a run over an empty point list (or an empty feature list)
completes successfully, so no `TransformInversionError` is raised before
sampling. -/
theorem claim_C6_counterexample :
    gtDet degenerateGT = 0 ∧
    invGeoTransform degenerateGT = none ∧
    sampleRasterFromPointsList mkIdentity
      { srs := "EPSG:3857", band := cexBand, forward := degenerateGT } [] =
      .ok [] ∧
    rasterValuesAtPoints mkIdentity
      { srs := "EPSG:3857", band := cexBand, forward := degenerateGT }
      { spatialRef := some "EPSG:4326", features := [] } = .ok [] := by
  refine ⟨by norm_num [gtDet, degenerateGT], by norm_num [invGeoTransform, gtDet,
    degenerateGT], ?_, ?_⟩
  · norm_num [sampleRasterFromPointsList, processPoints]
  · norm_num [rasterValuesAtPoints, processPoints]

/-- C6 (amended): when the forward geotransform is degenerate,
`InvGeoTransform` returns no inverse and no error is raised while the
raster is loaded; instead every point's processing fails at the
inverse-transform application step — before any pixel is read and for
every raster band — so a run fails (with that error, not a dedicated
inversion error) exactly when at least one point or feature is
processed, and a run over an empty input succeeds with an empty
result. -/
theorem claim_C6_amended (mk : MkTransform) (raster : Raster)
    (h : gtDet raster.forward = 0) :
    invGeoTransform raster.forward = none ∧
    sampleRasterFromPointsList mk raster [] = .ok [] ∧
    (∀ (points : List PointFeature), points ≠ [] →
      sampleRasterFromPointsList mk raster points =
        .error .noneReverseError) ∧
    (∀ (layer : VectorLayer) (sr : String), layer.spatialRef = some sr →
      layer.features ≠ [] →
      rasterValuesAtPoints mk raster layer = .error .noneReverseError) := by
  have hinv : invGeoTransform raster.forward = none := by
    simp [invGeoTransform, h]
  refine ⟨hinv, ?_, ?_, ?_⟩
  · simp [sampleRasterFromPointsList, processPoints]
  · intro points hne
    cases points with
    | nil => exact absurd rfl hne
    | cons p rest =>
      unfold sampleRasterFromPointsList
      simp only [hinv, processPoints_cons]
      rfl
  · intro layer sr hsr hne
    cases hf : layer.features with
    | nil => exact absurd hf hne
    | cons g rest =>
      unfold rasterValuesAtPoints
      rw [hsr]
      simp only [hinv, hf, processPoints_cons]
      rfl

/-- C6, witness for the amended theorem at a concrete degenerate
raster. -/
theorem claim_C6_witness :
    gtDet degenerateGT = 0 ∧
    invGeoTransform degenerateGT = none ∧
    sampleRasterFromPointsList mkIdentity
      { srs := "EPSG:3857", band := cexBand, forward := degenerateGT }
      [{ index := 0, x := 0, y := 0 }] = .error .noneReverseError := by
  have h : gtDet degenerateGT = 0 := by norm_num [gtDet, degenerateGT]
  have main := claim_C6_amended mkIdentity
    { srs := "EPSG:3857", band := cexBand, forward := degenerateGT } h
  exact ⟨h, main.1, main.2.2.1 [{ index := 0, x := 0, y := 0 }] (by simp)⟩

/-- A 4x4 band whose every pixel stores the int16 bytes of value 5. -/
def wideBand : RasterBand :=
  { xsize := 4, ysize := 4, pix := fun _ _ => [5, 0] }

/-- C7: when the pixel index computed for some point is rejected by the
raster read (out-of-range access window), the run fails with the
pixel-read error: no row is emitted (the result is an error, not a
partial list), and no subsequent input is processed (the outcome is the
same for every suffix).  Both paths behave this way. -/
theorem claim_C7 (mk : MkTransform) (raster : Raster) (rev : GeoTransform)
    (hrev : invGeoTransform raster.forward = some rev)
    (pre suf : List PointFeature) (p : PointFeature)
    (hpre : ∀ q ∈ pre, ∃ r, samplePointFromList (some rev)
        (mk "EPSG:3857" raster.srs) raster.band q = .ok r)
    (hout : readRaster raster.band
        ⌊(applyGeoTransform rev (mk "EPSG:3857" raster.srs p.x p.y).2
            (mk "EPSG:3857" raster.srs p.x p.y).1).1⌋
        ⌊(applyGeoTransform rev (mk "EPSG:3857" raster.srs p.x p.y).2
            (mk "EPSG:3857" raster.srs p.x p.y).1).2⌋ = none) :
    sampleRasterFromPointsList mk raster (pre ++ p :: suf) =
      .error .pixelReadError ∧
    (∀ suf' : List PointFeature,
      sampleRasterFromPointsList mk raster (pre ++ p :: suf') =
        sampleRasterFromPointsList mk raster (pre ++ p :: suf)) ∧
    (∀ (sr : String) (gpre gsuf : List (ℚ × ℚ)) (g : ℚ × ℚ),
      (∀ q ∈ gpre, ∃ r, samplePointFromLayer (some rev)
          (mk sr raster.srs) raster.band q = .ok r) →
      readRaster raster.band
          ⌊(applyGeoTransform rev (mk sr raster.srs g.1 g.2).2
              (mk sr raster.srs g.1 g.2).1).1⌋
          ⌊(applyGeoTransform rev (mk sr raster.srs g.1 g.2).2
              (mk sr raster.srs g.1 g.2).1).2⌋ = none →
      rasterValuesAtPoints mk raster
          { spatialRef := some sr, features := gpre ++ g :: gsuf } =
        .error .pixelReadError ∧
      ∀ gsuf' : List (ℚ × ℚ),
        rasterValuesAtPoints mk raster
            { spatialRef := some sr, features := gpre ++ g :: gsuf' } =
          rasterValuesAtPoints mk raster
            { spatialRef := some sr, features := gpre ++ g :: gsuf }) := by
  have hperr : samplePointFromList (some rev) (mk "EPSG:3857" raster.srs)
      raster.band p = .error .pixelReadError :=
    samplePointFromList_pixelReadError rev _ raster.band p hout
  have habort : ∀ s : List PointFeature,
      sampleRasterFromPointsList mk raster (pre ++ p :: s) =
        .error .pixelReadError := by
    intro s
    unfold sampleRasterFromPointsList
    simp only [hrev]
    exact processPoints_abort _ pre p s _ hpre hperr
  refine ⟨habort suf, fun suf' => by rw [habort suf, habort suf'], ?_⟩
  intro sr gpre gsuf g hgpre hgout
  have hgerr : samplePointFromLayer (some rev) (mk sr raster.srs)
      raster.band g = .error .pixelReadError :=
    samplePointFromLayer_pixelReadError rev _ raster.band g hgout
  have gabort : ∀ s : List (ℚ × ℚ),
      rasterValuesAtPoints mk raster
          { spatialRef := some sr, features := gpre ++ g :: s } =
        .error .pixelReadError := by
    intro s
    unfold rasterValuesAtPoints
    simp only [hrev]
    exact processPoints_abort _ gpre g s _ hgpre hgerr
  exact ⟨gabort gsuf, fun gsuf' => by rw [gabort gsuf, gabort gsuf']⟩

/-- C7, witness: one in-bounds point, then a point mapping outside the
4x4 raster, then a further point; the run aborts with the pixel-read
error. -/
theorem claim_C7_witness :
    invGeoTransform identityGT = some identityGT ∧
    (∀ q ∈ [({ index := 0, x := 0, y := 0 } : PointFeature)],
      ∃ r, samplePointFromList (some identityGT)
        (mkIdentity "EPSG:3857" "EPSG:3857") wideBand q = .ok r) ∧
    readRaster wideBand
        ⌊(applyGeoTransform identityGT
            (mkIdentity "EPSG:3857" "EPSG:3857" (9 : ℚ) (9 : ℚ)).2
            (mkIdentity "EPSG:3857" "EPSG:3857" (9 : ℚ) (9 : ℚ)).1).1⌋
        ⌊(applyGeoTransform identityGT
            (mkIdentity "EPSG:3857" "EPSG:3857" (9 : ℚ) (9 : ℚ)).2
            (mkIdentity "EPSG:3857" "EPSG:3857" (9 : ℚ) (9 : ℚ)).1).2⌋ =
      none ∧
    sampleRasterFromPointsList mkIdentity
      { srs := "EPSG:3857", band := wideBand, forward := identityGT }
      ([{ index := 0, x := 0, y := 0 }] ++
        { index := 1, x := 9, y := 9 } :: [{ index := 2, x := 1, y := 1 }]) =
      .error .pixelReadError := by
  have h1 : invGeoTransform identityGT = some identityGT :=
    invGeoTransform_identityGT
  have h2 : ∀ q ∈ [({ index := 0, x := 0, y := 0 } : PointFeature)],
      ∃ r, samplePointFromList (some identityGT)
        (mkIdentity "EPSG:3857" "EPSG:3857") wideBand q = .ok r := by
    intro q hq
    simp only [List.mem_singleton] at hq
    subst hq
    refine ⟨{ index := 0, x := 0, y := 0, elevation := 5 }, ?_⟩
    norm_num [samplePointFromList, mkIdentity, applyGeoTransform, identityGT,
      readRaster, wideBand, decodeInt16LE]
  have h3 : readRaster wideBand
      ⌊(applyGeoTransform identityGT
          (mkIdentity "EPSG:3857" "EPSG:3857" (9 : ℚ) (9 : ℚ)).2
          (mkIdentity "EPSG:3857" "EPSG:3857" (9 : ℚ) (9 : ℚ)).1).1⌋
      ⌊(applyGeoTransform identityGT
          (mkIdentity "EPSG:3857" "EPSG:3857" (9 : ℚ) (9 : ℚ)).2
          (mkIdentity "EPSG:3857" "EPSG:3857" (9 : ℚ) (9 : ℚ)).1).2⌋ =
      none := by
    norm_num [mkIdentity, applyGeoTransform, identityGT, readRaster, wideBand]
  exact ⟨h1, h2, h3,
    (claim_C7 mkIdentity
      { srs := "EPSG:3857", band := wideBand, forward := identityGT }
      identityGT h1 [{ index := 0, x := 0, y := 0 }]
      [{ index := 2, x := 1, y := 1 }] { index := 1, x := 9, y := 9 }
      h2 h3).1⟩

/-- C8: for every grid of N rows, the CSV writer's output at the
destination path is the concatenation of the header line `x,y,elevation`
and one line per row in input order — N+1 lines — and the result at the
destination does not depend on the file system's previous state
(unconditional overwrite). -/
theorem claim_C8 (grid : List (List ℚ)) (outfile : String) (fs : FileSys) :
    gridWithElevation2csv grid outfile fs outfile =
      some (concatLines (gridCsvLines grid)) ∧
    gridCsvLines grid = "x,y,elevation" ::
      grid.map (fun row => String.intercalate "," (row.map ratStr)) ∧
    (gridCsvLines grid).length = grid.length + 1 ∧
    (∀ fs' : FileSys, gridWithElevation2csv grid outfile fs' outfile =
      gridWithElevation2csv grid outfile fs outfile) := by
  refine ⟨?_, rfl, ?_, ?_⟩
  · simp [gridWithElevation2csv, writeFileW]
  · simp [gridCsvLines]
  · intro fs'
    simp [gridWithElevation2csv, writeFileW]

/-- C10: for the empty grid the writer still (over)writes the
destination with exactly the header line; and for every grid the
content written starts with the header line, independently of the data
rows. -/
theorem claim_C10 (outfile : String) (fs : FileSys) :
    gridWithElevation2csv [] outfile fs outfile =
      some "x,y,elevation\r\n" ∧
    gridCsvLines [] = ["x,y,elevation"] ∧
    (∀ grid : List (List ℚ),
      gridWithElevation2csv grid outfile fs outfile =
        some ("x,y,elevation\r\n" ++ concatLines (gridCsvLines grid).tail)) := by
  have hcontent : ∀ grid : List (List ℚ),
      concatLines (gridCsvLines grid) =
        "x,y,elevation\r\n" ++ concatLines (gridCsvLines grid).tail := by
    intro grid
    rw [gridCsvLines]
    show String.intercalate "," ["x", "y", "elevation"] ++
      ("\r\n" ++ concatLines (grid.map fun row =>
        String.intercalate "," (row.map ratStr))) = _
    rw [← String.append_assoc]
    rfl
  refine ⟨?_, rfl, ?_⟩
  · show (if outfile = outfile then some (concatLines (gridCsvLines [])) else
      fs outfile) = _
    rw [if_pos rfl]
    rfl
  · intro grid
    show (if outfile = outfile then some (concatLines (gridCsvLines grid)) else
      fs outfile) = _
    rw [if_pos rfl, hcontent grid]

/-- C9: a successful list-path run returns one row per input point, in
order, each carrying the input's index and ORIGINAL coordinates
unchanged (whatever the coordinate transformation did to them), with
only the decoded elevation added. -/
theorem claim_C9 (mk : MkTransform) (raster : Raster)
    (points : List PointFeature) (rows : List RowList)
    (h : sampleRasterFromPointsList mk raster points = .ok rows) :
    rows.map (fun r => (r.index, r.x, r.y)) =
      points.map (fun p => (p.index, p.x, p.y)) := by
  unfold sampleRasterFromPointsList at h
  obtain ⟨hlen, hget⟩ := processPoints_ok _ points rows h
  apply List.ext_get
  · simp [hlen]
  · intro i h1 h2
    simp only [List.get_eq_getElem, List.getElem_map]
    obtain ⟨e1, e2, e3⟩ := samplePointFromList_ok_fields _ _ _ _ _
      (hget i (by simpa using h2) (by simpa using h1))
    simp only [List.get_eq_getElem] at e1 e2 e3
    exact Prod.ext e1 (Prod.ext e2 e3)

/-- C9, witness: a run under a non-identity coordinate transformation
still reports the original input coordinates in its rows. -/
theorem claim_C9_witness :
    sampleRasterFromPointsList (fun _ _ x y => (x + 1, y + 2))
      { srs := "EPSG:3857", band := wideBand, forward := identityGT }
      [{ index := 0, x := 1, y := 0 }] =
      .ok [{ index := 0, x := 1, y := 0, elevation := 5 }] ∧
    List.map (fun r => (r.index, r.x, r.y))
        [({ index := 0, x := 1, y := 0, elevation := 5 } : RowList)] =
      List.map (fun p => (p.index, p.x, p.y))
        [({ index := 0, x := 1, y := 0 } : PointFeature)] := by
  have h : sampleRasterFromPointsList (fun _ _ x y => (x + 1, y + 2))
      { srs := "EPSG:3857", band := wideBand, forward := identityGT }
      [{ index := 0, x := 1, y := 0 }] =
      .ok [{ index := 0, x := 1, y := 0, elevation := 5 }] := by
    norm_num [sampleRasterFromPointsList, processPoints, samplePointFromList,
      invGeoTransform, gtDet, identityGT, applyGeoTransform, readRaster,
      wideBand, decodeInt16LE]
  exact ⟨h, claim_C9 _ _ _ _ h⟩

end SampleRasterAtPoints
